import Mathlib

/-!
Verification development for the `ecosim` predator–prey simulator
(`src/ecosim.py`).  The engine is shallowly embedded: Python classes become
structures, the mutable per-tick loops become folds over lists, and the
shared pseudo-random generator is modelled by oracle functions `ℕ → ℕ`
(each call site `random.choice(l)` reads one oracle value `k` and picks
`l[k % l.length]`; `random.shuffle` of the at-most-two-element predator
step list is modelled by an oracle-controlled optional reversal, which
reaches exactly the permutations Python can produce).  Python sets are
used only through membership tests, so they are modelled as lists;
numeric parameters are modelled as integers (the documented defaults and
every scenario in the specification are integers) and the food-regrowth
timers as exact rationals, since the grid initialiser scales a random
float by `FOOD_REGROW`.
-/

namespace Ecosim

/-- Grid coordinate pair `(x, y)`. -/
abbrev Pos : Type := ℕ × ℕ

/-- Configuration parameters of `ecosim.py` that the simulation core reads
(the render-only parameters `TILE`, `FPS`, `MAX_PLOT` and the
initialisation-only noise/population parameters are omitted: no claim
mentions them and the embedded operations never read them). -/
structure Cfg where
  GRID_W : ℕ
  GRID_H : ℕ
  FOOD_REGROW : ℤ
  H_INIT : ℤ
  H_MOVE_COST : ℤ
  H_BASAL_COST : ℤ
  H_FOOD_GAIN : ℤ
  H_FOOD_WAIT : ℤ
  H_REPRO_COST : ℤ
  H_REPRO_TH : ℤ
  P_INIT : ℤ
  P_MOVE_COST : ℤ
  P_BASAL_COST : ℤ
  P_FOOD_GAIN : ℤ
  P_FOOD_WAIT : ℤ
  P_REPRO_COST : ℤ
  P_REPRO_TH : ℤ
deriving DecidableEq

/-- Toroidal helper `wrap = lambda v, size: v % size` of `ecosim.py`;
Python's `%` on integers is Euclidean remainder, i.e. `Int.emod`, and the
result is cast back to a coordinate (nonnegative whenever `0 < size`). -/
def wrap (v : ℤ) (size : ℕ) : ℕ := (v % (size : ℤ)).toNat

/-- Direction table `DIRS = [(0,-1),(1,0),(0,1),(-1,0)]` (N, E, S, W),
indexed the way the Python list is. -/
def DIRS : Fin 4 → ℤ × ℤ
  | 0 => (0, -1)
  | 1 => (1, 0)
  | 2 => (0, 1)
  | 3 => (-1, 0)

/-- One toroidal step from `p` by offset `d` on a `w × h` grid:
`(wrap (x+dx) w, wrap (y+dy) h)`, the neighbour arithmetic used
throughout `ecosim.py`. -/
def stepOn (w h : ℕ) (p : Pos) (d : ℤ × ℤ) : Pos :=
  (wrap ((p.1 : ℤ) + d.1) w, wrap ((p.2 : ℤ) + d.2) h)

/-- Neighbour arithmetic of the agents, which read the global grid size. -/
def stepPos (cfg : Cfg) (p : Pos) (d : ℤ × ℤ) : Pos :=
  stepOn cfg.GRID_W cfg.GRID_H p d

/-! ## FoodGrid (`class FoodGrid`)

The Python object keeps `food[y][x] : bool` and `timer[y][x]`, which is
`None` exactly on the rock cells created by `__init__`.  Both arrays are
modelled as total functions on positions; the stored `rocks` set is kept
in the structure for fidelity although, as in the source, no grid
operation after `__init__` reads it. -/

structure FoodGrid where
  w : ℕ
  h : ℕ
  rocks : List Pos
  food : Pos → Bool
  timer : Pos → Option ℚ

/-- `FoodGrid.has(x, y)`: plain lookup of the food flag. -/
def FoodGrid.has (g : FoodGrid) (p : Pos) : Bool := g.food p

/-- `FoodGrid.eat(x, y)`: clear the food flag and restart the regrow
timer at `FOOD_REGROW`. -/
def FoodGrid.eat (cfg : Cfg) (g : FoodGrid) (p : Pos) : FoodGrid :=
  { g with
    food := fun q => if q = p then false else g.food q
    timer := fun q => if q = p then some ((cfg.FOOD_REGROW : ℚ)) else g.timer q }

/-- `FoodGrid._has_food_neighbour(x, y)`: one of the four toroidal
neighbours (using the grid's own `w`, `h`) currently has food. -/
def FoodGrid.hasFoodNeighbour (g : FoodGrid) (p : Pos) : Bool :=
  (List.finRange 4).any (fun i => g.food (stepOn g.w g.h p (DIRS i)))

/-- `FoodGrid.update()`.  The Python loop first scans every cell of the
old grid: a foodless cell with a timer (`timer != None`) whose neighbour
test succeeds has its timer decremented and is collected for regrowth
when the decremented timer is `≤ 0`; a second pass then sets
`food := True, timer := 0` on the collected cells.  The scan reads only
the `food` array, which the first pass never writes, so the loop is the
following pointwise function of the old grid. -/
def FoodGrid.update (g : FoodGrid) : FoodGrid :=
  { g with
    food := fun p =>
      if g.food p then true
      else
        match g.timer p with
        | some t => g.hasFoodNeighbour p && decide (t - 1 ≤ 0)
        | none => false
    timer := fun p =>
      if g.food p then g.timer p
      else
        match g.timer p with
        | some t =>
            if g.hasFoodNeighbour p then
              (if t - 1 ≤ 0 then some 0 else some (t - 1))
            else some t
        | none => none }

/-! ## Herbivore (`class Herbivore`) -/

structure Herbivore where
  x : ℕ
  y : ℕ
  facing : Fin 4
  energy : ℤ
  intended : Pos
  wait : ℤ
deriving DecidableEq

instance : Inhabited Herbivore :=
  ⟨{ x := 0, y := 0, facing := 0, energy := 0, intended := (0, 0), wait := 0 }⟩

/-- `Herbivore.pos()`. -/
def Herbivore.pos (a : Herbivore) : Pos := (a.x, a.y)

/-- `Herbivore.__init__(x, y, dir_idx)`: energy `H_INIT`, intent at the
spawn cell, no digestion wait. -/
def mkHerbivore (cfg : Cfg) (x y : ℕ) (d : Fin 4) : Herbivore :=
  { x := x, y := y, facing := d, energy := cfg.H_INIT, intended := (x, y), wait := 0 }

/-- Candidate list `opts` built inside `Herbivore.decide`: the four
neighbours in `DIRS` order, kept (together with their direction index)
when they are neither in `occupied` nor in `rocks`. -/
def Herbivore.opts (cfg : Cfg) (a : Herbivore) (occupied rocks : List Pos) :
    List (Pos × Fin 4) :=
  (List.finRange 4).filterMap (fun i =>
    let n := stepPos cfg a.pos (DIRS i)
    if n ∉ occupied ∧ n ∉ rocks then some (n, i) else none)

/-- `Herbivore.decide(grass, occupied, rocks)`: if the cell ahead of
`facing` has food, intend it (no occupancy or rock test on this branch);
otherwise pick `opts[k % len(opts)]` as new intent and facing when `opts`
is nonempty, else intend the current cell.  `k` is the oracle value
standing for the `random.choice` draw. -/
def Herbivore.decide (cfg : Cfg) (a : Herbivore) (grass : FoodGrid)
    (occupied rocks : List Pos) (k : ℕ) : Herbivore :=
  let ahead := stepPos cfg a.pos (DIRS a.facing)
  if grass.has ahead then { a with intended := ahead }
  else
    let l := a.opts cfg occupied rocks
    if l.isEmpty then { a with intended := a.pos }
    else
      let c := l.getD (k % l.length) (a.pos, a.facing)
      { a with intended := c.1, facing := c.2 }

/-- `Herbivore.move()`: a digesting agent (`wait` truthy) decrements its
wait and stays; otherwise the position becomes the intent. -/
def Herbivore.move (a : Herbivore) : Herbivore :=
  if a.wait ≠ 0 then { a with wait := a.wait - 1 }
  else { a with x := a.intended.1, y := a.intended.2 }

/-- `Herbivore.forage(grass)`: eat the food on the current cell, if any,
gaining `H_FOOD_GAIN` and entering a `H_FOOD_WAIT` digestion wait. -/
def Herbivore.forage (cfg : Cfg) (a : Herbivore) (grass : FoodGrid) :
    Herbivore × FoodGrid :=
  if grass.has a.pos then
    ({ a with energy := a.energy + cfg.H_FOOD_GAIN, wait := cfg.H_FOOD_WAIT },
      grass.eat cfg a.pos)
  else (a, grass)

/-- Energy update of `Herbivore.hunger()`: basal cost while digesting
(`wait` truthy), move cost otherwise.  The starvation test
`energy <= 0` that `hunger` returns is applied by the caller. -/
def Herbivore.hunger (cfg : Cfg) (a : Herbivore) : Herbivore :=
  if a.wait ≠ 0 then { a with energy := a.energy - cfg.H_BASAL_COST }
  else { a with energy := a.energy - cfg.H_MOVE_COST }

/-! ## Predator (`class Predator`) -/

structure Predator where
  x : ℕ
  y : ℕ
  energy : ℤ
  intended : Pos
  wait : ℤ
deriving DecidableEq

instance : Inhabited Predator :=
  ⟨{ x := 0, y := 0, energy := 0, intended := (0, 0), wait := 0 }⟩

/-- `Predator.pos()`. -/
def Predator.pos (a : Predator) : Pos := (a.x, a.y)

/-- `Predator.__init__(x, y)`. -/
def mkPredator (cfg : Cfg) (x y : ℕ) : Predator :=
  { x := x, y := y, energy := cfg.P_INIT, intended := (x, y), wait := 0 }

/-- `Predator._dist(a, b, size)`: toroidal one-axis distance
`min(|a-b|, size-|a-b|)`. -/
def pDist (a b : ℕ) (size : ℕ) : ℤ :=
  min |(a : ℤ) - b| ((size : ℤ) - |(a : ℤ) - b|)

/-- Python's `min(l, key=f)` on a nonempty list: the first element
attaining the minimal key. -/
def argminFirst (x : Pos) (xs : List Pos) (f : Pos → ℤ) : Pos :=
  xs.foldl (fun best p => if f p < f best then p else best) x

/-- The no-prey candidate list of `Predator.decide`: open neighbours
(not occupied, not rock) in `DIRS` order. -/
def Predator.opts (cfg : Cfg) (a : Predator) (occupied rocks : List Pos) :
    List Pos :=
  (List.finRange 4).filterMap (fun i =>
    let n := stepPos cfg a.pos (DIRS i)
    if n ∉ occupied ∧ n ∉ rocks then some n else none)

/-- `Predator.decide(herb_positions, occupied, rocks)`.  Without prey:
`random.choice` over the open neighbours, else stay.  With prey: chase
the first nearest herbivore under the toroidal Manhattan distance, build
the at most two axis step candidates (choosing the wrap direction by
comparing `(t-s) % size` with `(s-t) % size`), shuffle them (modelled by
reversing when the oracle value is odd), and take the first candidate
that is neither occupied nor rock, else stay. -/
def Predator.decide (cfg : Cfg) (a : Predator) (herbPositions : List Pos)
    (occupied rocks : List Pos) (k : ℕ) : Predator :=
  match herbPositions with
  | [] =>
      let l := a.opts cfg occupied rocks
      if l.isEmpty then { a with intended := a.pos }
      else { a with intended := l.getD (k % l.length) a.pos }
  | p0 :: rest =>
      let target := argminFirst p0 rest
        (fun p => pDist p.1 a.x cfg.GRID_W + pDist p.2 a.y cfg.GRID_H)
      let steps0 : List Pos :=
        (if a.x ≠ target.1 then
          [(wrap ((a.x : ℤ) +
              (if ((target.1 : ℤ) - a.x) % (cfg.GRID_W : ℤ) <
                  ((a.x : ℤ) - target.1) % (cfg.GRID_W : ℤ) then 1 else -1))
              cfg.GRID_W, a.y)]
        else []) ++
        (if a.y ≠ target.2 then
          [(a.x, wrap ((a.y : ℤ) +
              (if ((target.2 : ℤ) - a.y) % (cfg.GRID_H : ℤ) <
                  ((a.y : ℤ) - target.2) % (cfg.GRID_H : ℤ) then 1 else -1))
              cfg.GRID_H)]
        else [])
      let steps := if k % 2 = 1 then steps0.reverse else steps0
      match steps.find? (fun n => Decidable.decide (n ∉ occupied ∧ n ∉ rocks)) with
      | some n => { a with intended := n }
      | none => { a with intended := a.pos }

/-- `Predator.move()`: same digestion gating as the herbivore. -/
def Predator.move (a : Predator) : Predator :=
  if a.wait ≠ 0 then { a with wait := a.wait - 1 }
  else { a with x := a.intended.1, y := a.intended.2 }

/-- Energy update of `Predator.hunger()`. -/
def Predator.hunger (cfg : Cfg) (a : Predator) : Predator :=
  if a.wait ≠ 0 then { a with energy := a.energy - cfg.P_BASAL_COST }
  else { a with energy := a.energy - cfg.P_MOVE_COST }

/-! ## The herbivore dictionary

`run_game` rebuilds `herb_dict = {h.pos(): h for h in herb}` every tick
and later takes `herb = list(herb_dict.values())`.  A Python dict keeps
keys in first-insertion order and overwriting a key keeps its place but
replaces the value, which the association-list operations below
reproduce; `Predator.eat` uses `herb_dict.pop` (a `Herbivore` object is
always truthy, so the popped test is key presence). -/

abbrev HerbDict : Type := List (Pos × Herbivore)

/-- Dict assignment `d[key] = v`: replace in place if the key exists,
else append. -/
def dictInsert (d : HerbDict) (key : Pos) (v : Herbivore) : HerbDict :=
  match d with
  | [] => [(key, v)]
  | e :: rest => if e.1 = key then (e.1, v) :: rest else e :: dictInsert rest key v

/-- The dict comprehension `{h.pos(): h for h in herb}`. -/
def buildHerbDict (hs : List Herbivore) : HerbDict :=
  hs.foldl (fun d a => dictInsert d a.pos a) []

/-- Dict lookup. -/
def dictFind (d : HerbDict) (key : Pos) : Option Herbivore :=
  (d.find? (fun e => Decidable.decide (e.1 = key))).map (fun e => e.2)

/-- Dict deletion, preserving the order of the remaining entries. -/
def dictErase (d : HerbDict) (key : Pos) : HerbDict :=
  d.filter (fun e => Decidable.decide (¬ e.1 = key))

/-- `Predator.eat(herb_dict)`: pop the herbivore on the predator's cell,
if any; on success gain `P_FOOD_GAIN` and enter a `P_FOOD_WAIT` wait. -/
def Predator.eat (cfg : Cfg) (a : Predator) (d : HerbDict) :
    Predator × HerbDict :=
  match dictFind d a.pos with
  | some _ =>
      ({ a with energy := a.energy + cfg.P_FOOD_GAIN, wait := cfg.P_FOOD_WAIT },
        dictErase d a.pos)
  | none => (a, d)

/-! ## Tick orchestrator (`run_game` main loop)

Agents are mutable Python objects aliased from several containers, so
the embedding refers to each agent by its index in the phase's agent
list; the `defaultdict(list)` that groups agents by intended destination
becomes a list of `(destination, member indices)` pairs in first-intent
order, matching dict iteration order. -/

/-- Append index `i` to the group of `key`, creating the group at the
end on first sight (Python `defaultdict(list)` + `append`). -/
def insertIntent (acc : List (Pos × List ℕ)) (key : Pos) (i : ℕ) :
    List (Pos × List ℕ) :=
  match acc with
  | [] => [(key, [i])]
  | g :: rest =>
      if g.1 = key then (g.1, g.2 ++ [i]) :: rest
      else g :: insertIntent rest key i

/-- Group the agent indices by intended destination
(`moveP` / `destH` construction). -/
def groupByIntent (xs : List (ℕ × Pos)) : List (Pos × List ℕ) :=
  xs.foldl (fun acc p => insertIntent acc p.2 p.1) []

/-- Accumulator of the herbivore move-resolution loop: the (mutated)
agent list, the `occ_after` set and the `new_herb` offspring list. -/
structure HResolveAcc where
  agents : List Herbivore
  occAfter : List Pos
  babies : List Herbivore
deriving DecidableEq

/-- Body of `for group in destH.values()`: pick the mover
(`random.choice(group)`, oracle `ow`), move it, add its position to
`occ_after`, and reproduce on the vacated tile when the mover's energy
reaches `H_REPRO_TH` and the tile is not in `occ_after`; the newborn's
facing is the `random.randrange(4)` draw (oracle `ob`). -/
def hResolveStep (cfg : Cfg) (ow ob : ℕ → ℕ) (acc : HResolveAcc)
    (kg : ℕ × Pos × List ℕ) : HResolveAcc :=
  let pack := kg.2.2
  let i := pack.getD (ow kg.1 % pack.length) 0
  let mover := acc.agents.getD i default
  let old := mover.pos
  let mover1 := mover.move
  let agents1 := acc.agents.set i mover1
  let occ1 := mover1.pos :: acc.occAfter
  if mover1.energy ≥ cfg.H_REPRO_TH ∧ old ∉ occ1 then
    { agents := agents1.set i
        { mover1 with energy := mover1.energy - (cfg.H_REPRO_COST + cfg.H_INIT) }
      occAfter := occ1
      babies := acc.babies ++
        [mkHerbivore cfg old.1 old.2 ⟨ob kg.1 % 4, Nat.mod_lt _ (by omega)⟩] }
  else { agents := agents1, occAfter := occ1, babies := acc.babies }

/-- The whole herbivore resolution loop over the destination groups. -/
def hResolve (cfg : Cfg) (ow ob : ℕ → ℕ) (agents : List Herbivore)
    (groups : List (Pos × List ℕ)) : HResolveAcc :=
  groups.enum.foldl (fun acc p => hResolveStep cfg ow ob acc (p.1, p.2))
    { agents := agents, occAfter := [], babies := [] }

/-- Accumulator of the predator move-resolution loop. -/
structure PResolveAcc where
  agents : List Predator
  occAfter : List Pos
  babies : List Predator
deriving DecidableEq

/-- Body of `for pack in moveP.values()`, the predator twin of
`hResolveStep` (offspring take no random draw). -/
def pResolveStep (cfg : Cfg) (ow : ℕ → ℕ) (acc : PResolveAcc)
    (kg : ℕ × Pos × List ℕ) : PResolveAcc :=
  let pack := kg.2.2
  let i := pack.getD (ow kg.1 % pack.length) 0
  let mover := acc.agents.getD i default
  let old := mover.pos
  let mover1 := mover.move
  let agents1 := acc.agents.set i mover1
  let occ1 := mover1.pos :: acc.occAfter
  if mover1.energy ≥ cfg.P_REPRO_TH ∧ old ∉ occ1 then
    { agents := agents1.set i
        { mover1 with energy := mover1.energy - (cfg.P_REPRO_COST + cfg.P_INIT) }
      occAfter := occ1
      babies := acc.babies ++ [mkPredator cfg old.1 old.2] }
  else { agents := agents1, occAfter := occ1, babies := acc.babies }

/-- The whole predator resolution loop. -/
def pResolve (cfg : Cfg) (ow : ℕ → ℕ) (agents : List Predator)
    (groups : List (Pos × List ℕ)) : PResolveAcc :=
  groups.enum.foldl (fun acc p => pResolveStep cfg ow acc (p.1, p.2))
    { agents := agents, occAfter := [], babies := [] }

/-- The decide loop `for h in herb: h.decide(grass, occ_start, rocks)`;
agent `i` reads oracle value `od i` for its possible `random.choice`. -/
def hDecideAll (cfg : Cfg) (od : ℕ → ℕ) (hs : List Herbivore)
    (grass : FoodGrid) (occStart rocks : List Pos) : List Herbivore :=
  hs.enum.map (fun p => p.2.decide cfg grass occStart rocks (od p.1))

/-- The decide loop `for p in pred: p.decide(herb_positions, occ_pred, rocks)`. -/
def pDecideAll (cfg : Cfg) (od : ℕ → ℕ) (ps : List Predator)
    (herbPositions occStart rocks : List Pos) : List Predator :=
  ps.enum.map (fun p => p.2.decide cfg herbPositions occStart rocks (od p.1))

/-- The foraging loop `for h in herb: h.forage(grass)`; the grass is
threaded left to right because an earlier eater empties the cell for a
later one. -/
def hForageAll (cfg : Cfg) (hs : List Herbivore) (grass : FoodGrid) :
    List Herbivore × FoodGrid :=
  hs.foldl (fun acc a =>
    let r := a.forage cfg acc.2
    (acc.1 ++ [r.1], r.2)) ([], grass)

/-- The predation loop `for p in pred: p.eat(herb_dict)`, threading the
shared dictionary. -/
def pEatAll (cfg : Cfg) (ps : List Predator) (d : HerbDict) :
    List Predator × HerbDict :=
  ps.foldl (fun acc a =>
    let r := a.eat cfg acc.2
    (acc.1 ++ [r.1], r.2)) ([], d)

/-- Everything the herbivore phase of a tick produces, with the
intermediate stages exposed: the decided agents, the resolution result,
the agents after foraging but before `hunger`, and the final survivor
list (charged survivors followed by the newborns, which `run_game`
appends after the hunger filter). -/
structure HPhaseResult where
  decided : List Herbivore
  res : HResolveAcc
  preCharge : List Herbivore
  grassOut : FoodGrid
  out : List Herbivore

/-- The herbivore phase of `run_game`: occupancy snapshot, decide,
group, resolve, forage, hunger-and-cull, then append the offspring. -/
def herbPhaseFull (cfg : Cfg) (od ow ob : ℕ → ℕ) (hs : List Herbivore)
    (grass : FoodGrid) (rocks : List Pos) : HPhaseResult :=
  let occStart := hs.map Herbivore.pos
  let decided := hDecideAll cfg od hs grass occStart rocks
  let groups := groupByIntent (decided.enum.map (fun p => (p.1, p.2.intended)))
  let res := hResolve cfg ow ob decided groups
  let fed := hForageAll cfg res.agents grass
  { decided := decided
    res := res
    preCharge := fed.1
    grassOut := fed.2
    out := ((fed.1.map (Herbivore.hunger cfg)).filter
        (fun a => Decidable.decide (¬ a.energy ≤ 0))) ++ res.babies }

/-- Survivors and grid of the herbivore phase. -/
def herbPhase (cfg : Cfg) (od ow ob : ℕ → ℕ) (hs : List Herbivore)
    (grass : FoodGrid) (rocks : List Pos) : List Herbivore × FoodGrid :=
  let r := herbPhaseFull cfg od ow ob hs grass rocks
  (r.out, r.grassOut)

/-- Everything the predator phase produces: the rebuilt herbivore
dictionary, decided predators, resolution result, predators after the
predation loop (before `hunger`, offspring not yet appended), the final
predator list and the herbivore list `list(herb_dict.values())` handed
to the herbivore phase. -/
structure PPhaseResult where
  dict0 : HerbDict
  decided : List Predator
  res : PResolveAcc
  preCharge : List Predator
  out : List Predator
  herbsOut : List Herbivore

/-- The predator phase of `run_game`: rebuild `herb_dict`, snapshot
predator occupancy, decide, group, resolve (moves and offspring on
vacated tiles), predation on the post-move cells, append offspring,
hunger-and-cull, and read the surviving herbivores back off the dict. -/
def predPhaseFull (cfg : Cfg) (od ow : ℕ → ℕ) (ps : List Predator)
    (hs : List Herbivore) (rocks : List Pos) : PPhaseResult :=
  let hdict := buildHerbDict hs
  let occPred := ps.map Predator.pos
  let herbPositions := hdict.map (fun e => e.1)
  let decided := pDecideAll cfg od ps herbPositions occPred rocks
  let groups := groupByIntent (decided.enum.map (fun p => (p.1, p.2.intended)))
  let res := pResolve cfg ow decided groups
  let eaten := pEatAll cfg res.agents hdict
  let allP := eaten.1 ++ res.babies
  { dict0 := hdict
    decided := decided
    res := res
    preCharge := allP
    out := (allP.map (Predator.hunger cfg)).filter
        (fun a => Decidable.decide (¬ a.energy ≤ 0))
    herbsOut := eaten.2.map (fun e => e.2) }

/-- Predator survivors and the herbivore list left for the herbivore
phase. -/
def predPhase (cfg : Cfg) (od ow : ℕ → ℕ) (ps : List Predator)
    (hs : List Herbivore) (rocks : List Pos) : List Predator × List Herbivore :=
  let r := predPhaseFull cfg od ow ps hs rocks
  (r.out, r.herbsOut)

/-- Engine state between ticks. -/
structure SimState where
  herbs : List Herbivore
  preds : List Predator
  grass : FoodGrid

/-- Oracle values standing for the shared random generator's draws, one
family per call site: predator decisions, predator arbitration,
herbivore decisions, herbivore arbitration, newborn facings. -/
structure Oracles where
  pdec : ℕ → ℕ
  pwin : ℕ → ℕ
  hdec : ℕ → ℕ
  hwin : ℕ → ℕ
  hbaby : ℕ → ℕ

/-- One unpaused iteration of the `run_game` main loop: the predator
phase, the herbivore phase, then `grass.update()`. -/
def tick (cfg : Cfg) (oc : Oracles) (rocks : List Pos) (st : SimState) :
    SimState :=
  let pr := predPhase cfg oc.pdec oc.pwin st.preds st.herbs rocks
  let hr := herbPhase cfg oc.hdec oc.hwin oc.hbaby pr.2 st.grass rocks
  { herbs := hr.1, preds := pr.1, grass := hr.2.update }

/-! ## Pointwise behaviour of the food automaton -/

lemma FoodGrid.eat_food_self (cfg : Cfg) (g : FoodGrid) (p : Pos) :
    (g.eat cfg p).food p = false := by
  simp [FoodGrid.eat]

lemma FoodGrid.eat_timer_self (cfg : Cfg) (g : FoodGrid) (p : Pos) :
    (g.eat cfg p).timer p = some ((cfg.FOOD_REGROW : ℚ)) := by
  simp [FoodGrid.eat]

lemma FoodGrid.update_w (g : FoodGrid) : g.update.w = g.w := rfl

lemma FoodGrid.update_h (g : FoodGrid) : g.update.h = g.h := rfl

/-- An empty cell with a live timer, a food neighbour in the old grid:
the timer is decremented and the cell regrows exactly when it hits 0. -/
lemma FoodGrid.update_point_active (g : FoodGrid) (p : Pos) (t : ℚ)
    (hf : g.food p = false) (ht : g.timer p = some t)
    (hn : g.hasFoodNeighbour p = true) :
    g.update.food p = decide (t - 1 ≤ 0) ∧
    g.update.timer p = (if t - 1 ≤ 0 then some 0 else some (t - 1)) := by
  constructor <;> simp [FoodGrid.update, hf, ht, hn]

/-- An empty cell with no food neighbour is left entirely alone. -/
lemma FoodGrid.update_point_inactive (g : FoodGrid) (p : Pos)
    (hf : g.food p = false) (hn : g.hasFoodNeighbour p = false) :
    g.update.food p = false ∧ g.update.timer p = g.timer p := by
  refine ⟨?_, ?_⟩ <;> · simp only [FoodGrid.update, hf]
                        cases ht : g.timer p <;> simp [hn, ht]

/-- An empty cell whose timer is disabled (`None`, the rock marker)
never changes. -/
lemma FoodGrid.update_point_none (g : FoodGrid) (q : Pos)
    (hf : g.food q = false) (ht : g.timer q = none) :
    g.update.food q = false ∧ g.update.timer q = none := by
  refine ⟨?_, ?_⟩ <;> simp [FoodGrid.update, hf, ht]

/-- The neighbour test fails when all four neighbours are foodless. -/
lemma FoodGrid.hasFoodNeighbour_false (g : FoodGrid) (p : Pos)
    (h : ∀ i : Fin 4, g.food (stepOn g.w g.h p (DIRS i)) = false) :
    g.hasFoodNeighbour p = false := by
  simp only [FoodGrid.hasFoodNeighbour, List.any_eq_false]
  intro i _
  simp [h i]

/-- Invariant behind C8: a foodless cell whose four neighbours are
foodless with disabled timers stays foodless with an untouched timer,
and its neighbours stay that way, under any number of updates. -/
lemma c8_invariant (g : FoodGrid) (p : Pos)
    (hf : g.food p = false)
    (hnb : ∀ i : Fin 4, g.food (stepOn g.w g.h p (DIRS i)) = false ∧
      g.timer (stepOn g.w g.h p (DIRS i)) = none) :
    ∀ k : ℕ,
      (FoodGrid.update^[k] g).w = g.w ∧
      (FoodGrid.update^[k] g).h = g.h ∧
      (FoodGrid.update^[k] g).food p = false ∧
      (FoodGrid.update^[k] g).timer p = g.timer p ∧
      ∀ i : Fin 4,
        (FoodGrid.update^[k] g).food (stepOn g.w g.h p (DIRS i)) = false ∧
        (FoodGrid.update^[k] g).timer (stepOn g.w g.h p (DIRS i)) = none := by
  intro k
  induction k with
  | zero => exact ⟨rfl, rfl, hf, rfl, hnb⟩
  | succ k ih =>
      obtain ⟨hw, hh, hfp, htp, hn⟩ := ih
      rw [Function.iterate_succ_apply']
      have hwh : ∀ i : Fin 4,
          stepOn (FoodGrid.update^[k] g).w (FoodGrid.update^[k] g).h p (DIRS i) =
            stepOn g.w g.h p (DIRS i) := by
        intro i; rw [hw, hh]
      have hnbr : (FoodGrid.update^[k] g).hasFoodNeighbour p = false := by
        apply FoodGrid.hasFoodNeighbour_false
        intro i
        rw [hwh i]
        exact (hn i).1
      have hcent := FoodGrid.update_point_inactive (FoodGrid.update^[k] g) p hfp hnbr
      refine ⟨by rw [FoodGrid.update_w, hw], by rw [FoodGrid.update_h, hh],
        hcent.1, by rw [hcent.2, htp], ?_⟩
      intro i
      exact FoodGrid.update_point_none (FoodGrid.update^[k] g) _ (hn i).1 (hn i).2

/-- C8: a non-blocked foodless cell all four of whose toroidal
neighbours are permanently foodless (foodless with disabled regrow
timers, as the rock cells are) never regrows: `has` stays false after
any number of `update()` calls and its regrow timer is never touched. -/
theorem c8_isolated_cell_never_regrows (g : FoodGrid) (p : Pos)
    (hrock : p ∉ g.rocks)
    (hf : g.food p = false)
    (hnb : ∀ i : Fin 4, g.food (stepOn g.w g.h p (DIRS i)) = false ∧
      g.timer (stepOn g.w g.h p (DIRS i)) = none) :
    ∀ k : ℕ, (FoodGrid.update^[k] g).has p = false ∧
      (FoodGrid.update^[k] g).timer p = g.timer p := by
  intro k
  obtain ⟨-, -, h1, h2, -⟩ := c8_invariant g p hf hnb k
  exact ⟨h1, h2⟩

/-- Concrete witness grid for C8: a 3 × 3 grid whose cell (1, 1) has a
live timer but is surrounded by rock-like cells. -/
def c8grid : FoodGrid :=
  { w := 3, h := 3
    rocks := [(1, 0), (2, 1), (1, 2), (0, 1)]
    food := fun _ => false
    timer := fun q => if q = (1, 1) then some 7 else none }

theorem c8_isolated_cell_never_regrows_witness :
    (FoodGrid.update^[5] c8grid).has (1, 1) = false ∧
    (FoodGrid.update^[5] c8grid).timer (1, 1) = c8grid.timer (1, 1) :=
  c8_isolated_cell_never_regrows c8grid (1, 1) (by decide) (by decide)
    (by decide) 5

/-- Countdown behind C6: `k` updates after `eat`, while a food
neighbour has been present at every step, the cell is still foodless and
its timer reads `FOOD_REGROW - k`. -/
lemma c6_countdown (cfg : Cfg) (g : FoodGrid) (p : Pos) (r : ℕ)
    (hcfg : cfg.FOOD_REGROW = (r : ℤ))
    (hnbr : ∀ k, k < r →
      (FoodGrid.update^[k] (g.eat cfg p)).hasFoodNeighbour p = true) :
    ∀ k, k < r →
      (FoodGrid.update^[k] (g.eat cfg p)).food p = false ∧
      (FoodGrid.update^[k] (g.eat cfg p)).timer p = some ((r : ℚ) - k) := by
  intro k
  induction k with
  | zero =>
      intro _
      refine ⟨FoodGrid.eat_food_self cfg g p, ?_⟩
      rw [Function.iterate_zero_apply, FoodGrid.eat_timer_self, hcfg]
      norm_num
  | succ k ih =>
      intro hk
      have hk' : k < r := Nat.lt_of_succ_lt hk
      obtain ⟨hf, ht⟩ := ih hk'
      rw [Function.iterate_succ_apply']
      have hact := FoodGrid.update_point_active _ p ((r : ℚ) - k) hf ht
        (hnbr k hk')
      have hpos : ¬ ((r : ℚ) - k - 1 ≤ 0) := by
        have : (k : ℚ) + 1 < r := by exact_mod_cast hk
        linarith
      constructor
      · rw [hact.1]
        simp [hpos]
      · rw [hact.2, if_neg hpos]
        congr 1
        push_cast
        ring

/-- C6: immediately after `eat(pos)` the grid reports no food at `pos`,
and if a food-bearing toroidal neighbour is present at each of the next
`FOOD_REGROW` updates (and `pos` itself is not eaten again — only
`update()` is applied), then `pos` is still foodless strictly before the
`FOOD_REGROW`-th update and has food again exactly at it. -/
theorem c6_eat_then_regrow (cfg : Cfg) (g : FoodGrid) (p : Pos) (r : ℕ)
    (hrock : p ∉ g.rocks) (hr : 1 ≤ r) (hcfg : cfg.FOOD_REGROW = (r : ℤ))
    (hnbr : ∀ k, k < r →
      (FoodGrid.update^[k] (g.eat cfg p)).hasFoodNeighbour p = true) :
    (g.eat cfg p).has p = false ∧
    (∀ k, k < r → (FoodGrid.update^[k] (g.eat cfg p)).has p = false) ∧
    (FoodGrid.update^[r] (g.eat cfg p)).has p = true := by
  refine ⟨FoodGrid.eat_food_self cfg g p, ?_, ?_⟩
  · intro k hk
    exact (c6_countdown cfg g p r hcfg hnbr k hk).1
  · obtain ⟨hf, ht⟩ := c6_countdown cfg g p r hcfg hnbr (r - 1)
      (by omega)
    have hstep : r = (r - 1) + 1 := by omega
    rw [hstep, Function.iterate_succ_apply']
    have hact := FoodGrid.update_point_active _ p ((r : ℚ) - (r - 1 : ℕ)) hf ht
      (hnbr (r - 1) (by omega))
    have hzero : (r : ℚ) - ((r - 1 : ℕ) : ℚ) - 1 = 0 := by
      have : ((r - 1 : ℕ) : ℚ) = (r : ℚ) - 1 := by
        push_cast [Nat.cast_sub hr]
        ring
      rw [this]
      ring
    show (FoodGrid.update^[r - 1] (g.eat cfg p)).update.food p = true
    rw [hact.1, hzero]
    norm_num

/-- Concrete witness grid for C6: a 2 × 2 grid with permanent food at
(1, 0), the neighbour of the eaten cell (0, 0). -/
def c6grid : FoodGrid :=
  { w := 2, h := 2
    rocks := []
    food := fun q => Decidable.decide (q = (1, 0) ∨ q = (0, 0))
    timer := fun _ => some 0 }

/-- Concrete configuration for the C6 witness: `FOOD_REGROW = 2`,
everything else as the documented defaults. -/
def c6cfg : Cfg :=
  { GRID_W := 2, GRID_H := 2, FOOD_REGROW := 2,
    H_INIT := 10, H_MOVE_COST := 1, H_BASAL_COST := 0, H_FOOD_GAIN := 3,
    H_FOOD_WAIT := 1, H_REPRO_COST := 5, H_REPRO_TH := 25,
    P_INIT := 30, P_MOVE_COST := 1, P_BASAL_COST := 0, P_FOOD_GAIN := 10,
    P_FOOD_WAIT := 2, P_REPRO_COST := 10, P_REPRO_TH := 70 }

theorem c6_eat_then_regrow_witness :
    (c6grid.eat c6cfg (0, 0)).has (0, 0) = false ∧
    (∀ k, k < 2 →
      (FoodGrid.update^[k] (c6grid.eat c6cfg (0, 0))).has (0, 0) = false) ∧
    (FoodGrid.update^[2] (c6grid.eat c6cfg (0, 0))).has (0, 0) = true :=
  c6_eat_then_regrow c6cfg c6grid (0, 0) 2 (by decide) (by decide) (by decide)
    (by decide)

/-! ## Facts about the move-resolution loop bodies -/

lemma getD_set_self {α : Type} [Inhabited α] (l : List α) (i : ℕ) (v : α)
    (h : i < l.length) : (l.set i v).getD i default = v := by
  rw [List.getD_eq_getElem?_getD, List.getElem?_set_self]
  · simp
  · simpa using h

lemma herb_move_energy (a : Herbivore) : a.move.energy = a.energy := by
  unfold Herbivore.move
  split <;> rfl

lemma herb_move_of_wait (a : Herbivore) (h : a.wait ≠ 0) :
    a.move = { a with wait := a.wait - 1 } := by
  unfold Herbivore.move
  simp [h]

lemma herb_move_pos_of_wait (a : Herbivore) (h : a.wait ≠ 0) :
    a.move.pos = a.pos := by
  rw [herb_move_of_wait a h]
  rfl

lemma pred_move_energy (a : Predator) : a.move.energy = a.energy := by
  unfold Predator.move
  split <;> rfl

lemma pred_move_of_wait (a : Predator) (h : a.wait ≠ 0) :
    a.move = { a with wait := a.wait - 1 } := by
  unfold Predator.move
  simp [h]

lemma pred_move_pos_of_wait (a : Predator) (h : a.wait ≠ 0) :
    a.move.pos = a.pos := by
  rw [pred_move_of_wait a h]
  rfl

/-- C10: in both species' resolution loops, a group winner whose digest
wait is positive keeps its position (the wait is decremented instead),
keeps its energy, and contributes no newborn: its old cell is inserted
into `occ_after` before the reproduction test, so the test always fails
for it. -/
theorem c10_digesting_winner_stays (cfg : Cfg) (ow ob : ℕ → ℕ)
    (acc : HResolveAcc) (k : ℕ) (key : Pos) (pack : List ℕ)
    (pacc : PResolveAcc) (k2 : ℕ) (key2 : Pos) (pack2 : List ℕ) :
    ((pack.getD (ow k % pack.length) 0 < acc.agents.length) →
      0 < (acc.agents.getD (pack.getD (ow k % pack.length) 0) default).wait →
      ((hResolveStep cfg ow ob acc (k, key, pack)).agents.getD
          (pack.getD (ow k % pack.length) 0) default).pos =
        (acc.agents.getD (pack.getD (ow k % pack.length) 0) default).pos ∧
      ((hResolveStep cfg ow ob acc (k, key, pack)).agents.getD
          (pack.getD (ow k % pack.length) 0) default).wait =
        (acc.agents.getD (pack.getD (ow k % pack.length) 0) default).wait - 1 ∧
      ((hResolveStep cfg ow ob acc (k, key, pack)).agents.getD
          (pack.getD (ow k % pack.length) 0) default).energy =
        (acc.agents.getD (pack.getD (ow k % pack.length) 0) default).energy ∧
      (hResolveStep cfg ow ob acc (k, key, pack)).babies = acc.babies) ∧
    ((pack2.getD (ow k2 % pack2.length) 0 < pacc.agents.length) →
      0 < (pacc.agents.getD (pack2.getD (ow k2 % pack2.length) 0) default).wait →
      ((pResolveStep cfg ow pacc (k2, key2, pack2)).agents.getD
          (pack2.getD (ow k2 % pack2.length) 0) default).pos =
        (pacc.agents.getD (pack2.getD (ow k2 % pack2.length) 0) default).pos ∧
      ((pResolveStep cfg ow pacc (k2, key2, pack2)).agents.getD
          (pack2.getD (ow k2 % pack2.length) 0) default).wait =
        (pacc.agents.getD (pack2.getD (ow k2 % pack2.length) 0) default).wait - 1 ∧
      ((pResolveStep cfg ow pacc (k2, key2, pack2)).agents.getD
          (pack2.getD (ow k2 % pack2.length) 0) default).energy =
        (pacc.agents.getD (pack2.getD (ow k2 % pack2.length) 0) default).energy ∧
      (pResolveStep cfg ow pacc (k2, key2, pack2)).babies = pacc.babies) := by
  constructor
  · intro hi hw
    have hwne : (acc.agents.getD (pack.getD (ow k % pack.length) 0) default).wait ≠ 0 := by
      omega
    unfold hResolveStep
    set i := pack.getD (ow k % pack.length) 0 with hidef
    set mover := acc.agents.getD i default with hm
    have hmv := herb_move_of_wait mover hwne
    have hpos : mover.move.pos = mover.pos := by rw [hmv]; rfl
    have hcond : ¬ (mover.move.energy ≥ cfg.H_REPRO_TH ∧
        mover.pos ∉ mover.move.pos :: acc.occAfter) := by
      intro hco
      exact hco.2 (by rw [hpos]; exact List.mem_cons_self _ _)
    simp only [← hm, ← hidef, if_neg hcond]
    refine ⟨?_, ?_, ?_, by trivial⟩
    · rw [getD_set_self _ _ _ (by simpa using hi), hpos]
    · rw [getD_set_self _ _ _ (by simpa using hi), hmv]
    · rw [getD_set_self _ _ _ (by simpa using hi), herb_move_energy]
  · intro hi hw
    have hwne : (pacc.agents.getD (pack2.getD (ow k2 % pack2.length) 0) default).wait ≠ 0 := by
      omega
    unfold pResolveStep
    set i := pack2.getD (ow k2 % pack2.length) 0 with hidef
    set mover := pacc.agents.getD i default with hm
    have hmv := pred_move_of_wait mover hwne
    have hpos : mover.move.pos = mover.pos := by rw [hmv]; rfl
    have hcond : ¬ (mover.move.energy ≥ cfg.P_REPRO_TH ∧
        mover.pos ∉ mover.move.pos :: pacc.occAfter) := by
      intro hco
      exact hco.2 (by rw [hpos]; exact List.mem_cons_self _ _)
    simp only [← hm, ← hidef, if_neg hcond]
    refine ⟨?_, ?_, ?_, by trivial⟩
    · rw [getD_set_self _ _ _ (by simpa using hi), hpos]
    · rw [getD_set_self _ _ _ (by simpa using hi), hmv]
    · rw [getD_set_self _ _ _ (by simpa using hi), pred_move_energy]

theorem c10_digesting_winner_stays_witness :
    (((hResolveStep c6cfg (fun _ => 0) (fun _ => 0)
        { agents := [{ x := 1, y := 1, facing := 0, energy := 9,
                       intended := (2, 1), wait := 3 }],
          occAfter := [], babies := [] } (0, (2, 1), [0])).agents.getD 0
        default).pos = (1, 1) ∧
      ((hResolveStep c6cfg (fun _ => 0) (fun _ => 0)
        { agents := [{ x := 1, y := 1, facing := 0, energy := 9,
                       intended := (2, 1), wait := 3 }],
          occAfter := [], babies := [] } (0, (2, 1), [0])).agents.getD 0
        default).wait = 2 ∧
      ((hResolveStep c6cfg (fun _ => 0) (fun _ => 0)
        { agents := [{ x := 1, y := 1, facing := 0, energy := 9,
                       intended := (2, 1), wait := 3 }],
          occAfter := [], babies := [] } (0, (2, 1), [0])).agents.getD 0
        default).energy = 9 ∧
      (hResolveStep c6cfg (fun _ => 0) (fun _ => 0)
        { agents := [{ x := 1, y := 1, facing := 0, energy := 9,
                       intended := (2, 1), wait := 3 }],
          occAfter := [], babies := [] } (0, (2, 1), [0])).babies = []) ∧
    (((pResolveStep c6cfg (fun _ => 0)
        { agents := [{ x := 0, y := 1, energy := 80,
                       intended := (0, 0), wait := 1 }],
          occAfter := [], babies := [] } (0, (0, 0), [0])).agents.getD 0
        default).pos = (0, 1) ∧
      ((pResolveStep c6cfg (fun _ => 0)
        { agents := [{ x := 0, y := 1, energy := 80,
                       intended := (0, 0), wait := 1 }],
          occAfter := [], babies := [] } (0, (0, 0), [0])).agents.getD 0
        default).wait = 0 ∧
      ((pResolveStep c6cfg (fun _ => 0)
        { agents := [{ x := 0, y := 1, energy := 80,
                       intended := (0, 0), wait := 1 }],
          occAfter := [], babies := [] } (0, (0, 0), [0])).agents.getD 0
        default).energy = 80 ∧
      (pResolveStep c6cfg (fun _ => 0)
        { agents := [{ x := 0, y := 1, energy := 80,
                       intended := (0, 0), wait := 1 }],
          occAfter := [], babies := [] } (0, (0, 0), [0])).babies = []) := by
  have h := c10_digesting_winner_stays c6cfg (fun _ => 0) (fun _ => 0)
    { agents := [{ x := 1, y := 1, facing := 0, energy := 9,
                   intended := (2, 1), wait := 3 }],
      occAfter := [], babies := [] } 0 (2, 1) [0]
    { agents := [{ x := 0, y := 1, energy := 80,
                   intended := (0, 0), wait := 1 }],
      occAfter := [], babies := [] } 0 (0, 0) [0]
  exact ⟨h.1 (by decide) (by decide), h.2 (by decide) (by decide)⟩

/-- C7: in both species' resolution loops, when the reproduction branch
fires for the group winner (its post-move energy reaches the species
threshold and the vacated cell is not in `occ_after`), the winner's
energy is debited by exactly the species reproduction cost plus the
species initial energy, and the appended newborn carries exactly the
species initial energy. -/
theorem c7_reproduction_energy (cfg : Cfg) (ow ob : ℕ → ℕ)
    (acc : HResolveAcc) (k : ℕ) (key : Pos) (pack : List ℕ)
    (pacc : PResolveAcc) (k2 : ℕ) (key2 : Pos) (pack2 : List ℕ) :
    ((pack.getD (ow k % pack.length) 0 < acc.agents.length) →
      cfg.H_REPRO_TH ≤ (acc.agents.getD (pack.getD (ow k % pack.length) 0) default).energy →
      (acc.agents.getD (pack.getD (ow k % pack.length) 0) default).pos ∉
        ((acc.agents.getD (pack.getD (ow k % pack.length) 0) default).move.pos
          :: acc.occAfter) →
      (∃ b : Herbivore,
        (hResolveStep cfg ow ob acc (k, key, pack)).babies = acc.babies ++ [b] ∧
        b.energy = cfg.H_INIT ∧
        b.pos = (acc.agents.getD (pack.getD (ow k % pack.length) 0) default).pos) ∧
      ((hResolveStep cfg ow ob acc (k, key, pack)).agents.getD
          (pack.getD (ow k % pack.length) 0) default).energy =
        (acc.agents.getD (pack.getD (ow k % pack.length) 0) default).energy -
          (cfg.H_REPRO_COST + cfg.H_INIT)) ∧
    ((pack2.getD (ow k2 % pack2.length) 0 < pacc.agents.length) →
      cfg.P_REPRO_TH ≤ (pacc.agents.getD (pack2.getD (ow k2 % pack2.length) 0) default).energy →
      (pacc.agents.getD (pack2.getD (ow k2 % pack2.length) 0) default).pos ∉
        ((pacc.agents.getD (pack2.getD (ow k2 % pack2.length) 0) default).move.pos
          :: pacc.occAfter) →
      (∃ b : Predator,
        (pResolveStep cfg ow pacc (k2, key2, pack2)).babies = pacc.babies ++ [b] ∧
        b.energy = cfg.P_INIT ∧
        b.pos = (pacc.agents.getD (pack2.getD (ow k2 % pack2.length) 0) default).pos) ∧
      ((pResolveStep cfg ow pacc (k2, key2, pack2)).agents.getD
          (pack2.getD (ow k2 % pack2.length) 0) default).energy =
        (pacc.agents.getD (pack2.getD (ow k2 % pack2.length) 0) default).energy -
          (cfg.P_REPRO_COST + cfg.P_INIT)) := by
  constructor
  · intro hi hen hvac
    unfold hResolveStep
    set i := pack.getD (ow k % pack.length) 0 with hidef
    set mover := acc.agents.getD i default with hm
    have hcond : mover.move.energy ≥ cfg.H_REPRO_TH ∧
        mover.pos ∉ mover.move.pos :: acc.occAfter := by
      refine ⟨?_, hvac⟩
      rw [herb_move_energy]
      exact hen
    simp only [← hm, ← hidef, if_pos hcond]
    refine ⟨⟨mkHerbivore cfg mover.pos.1 mover.pos.2
      ⟨ob k % 4, Nat.mod_lt _ (by omega)⟩, rfl, rfl, rfl⟩, ?_⟩
    rw [getD_set_self _ _ _ (by simpa using hi)]
    rw [herb_move_energy]
  · intro hi hen hvac
    unfold pResolveStep
    set i := pack2.getD (ow k2 % pack2.length) 0 with hidef
    set mover := pacc.agents.getD i default with hm
    have hcond : mover.move.energy ≥ cfg.P_REPRO_TH ∧
        mover.pos ∉ mover.move.pos :: pacc.occAfter := by
      refine ⟨?_, hvac⟩
      rw [pred_move_energy]
      exact hen
    simp only [← hm, ← hidef, if_pos hcond]
    refine ⟨⟨mkPredator cfg mover.pos.1 mover.pos.2, rfl, rfl, rfl⟩, ?_⟩
    rw [getD_set_self _ _ _ (by simpa using hi)]
    rw [pred_move_energy]

theorem c7_reproduction_energy_witness :
    ((∃ b : Herbivore,
        (hResolveStep c6cfg (fun _ => 0) (fun _ => 0)
          { agents := [{ x := 1, y := 1, facing := 0, energy := 26,
                         intended := (2, 1), wait := 0 }],
            occAfter := [], babies := [] } (0, (2, 1), [0])).babies = [] ++ [b] ∧
        b.energy = c6cfg.H_INIT ∧ b.pos = (1, 1)) ∧
      ((hResolveStep c6cfg (fun _ => 0) (fun _ => 0)
          { agents := [{ x := 1, y := 1, facing := 0, energy := 26,
                         intended := (2, 1), wait := 0 }],
            occAfter := [], babies := [] } (0, (2, 1), [0])).agents.getD 0
          default).energy = 26 - (c6cfg.H_REPRO_COST + c6cfg.H_INIT)) ∧
    ((∃ b : Predator,
        (pResolveStep c6cfg (fun _ => 0)
          { agents := [{ x := 0, y := 1, energy := 75,
                         intended := (0, 0), wait := 0 }],
            occAfter := [], babies := [] } (0, (0, 0), [0])).babies = [] ++ [b] ∧
        b.energy = c6cfg.P_INIT ∧ b.pos = (0, 1)) ∧
      ((pResolveStep c6cfg (fun _ => 0)
          { agents := [{ x := 0, y := 1, energy := 75,
                         intended := (0, 0), wait := 0 }],
            occAfter := [], babies := [] } (0, (0, 0), [0])).agents.getD 0
          default).energy = 75 - (c6cfg.P_REPRO_COST + c6cfg.P_INIT)) := by
  have h := c7_reproduction_energy c6cfg (fun _ => 0) (fun _ => 0)
    { agents := [{ x := 1, y := 1, facing := 0, energy := 26,
                   intended := (2, 1), wait := 0 }],
      occAfter := [], babies := [] } 0 (2, 1) [0]
    { agents := [{ x := 0, y := 1, energy := 75,
                   intended := (0, 0), wait := 0 }],
      occAfter := [], babies := [] } 0 (0, 0) [0]
  exact ⟨h.1 (by decide) (by decide) (by decide),
         h.2 (by decide) (by decide) (by decide)⟩

/-! ## Parameter collection (`on_start` in `show_config_window`)

`on_start` reads each entry's stripped text; a value containing a dot is
parsed with `float(...)`, any other with `int(...)`, and only a parse
failure (`ValueError`) makes the parameter fall back to its default — no
range check of any kind is performed.  The numeric-literal forms
modelled are optionally signed decimal digit strings, with an optional
fractional part in the float case, which covers every value the claims
are about; parsed numbers land in `ℚ`, a common home for Python's int
and float results here. -/

/-- Decimal digit value of a character. -/
def digitVal (c : Char) : Option ℕ :=
  if c.isDigit then some (c.toNat - ('0').toNat) else none

/-- Value of a nonempty all-digit character list. -/
def parseDigits (cs : List Char) : Option ℕ :=
  match cs with
  | [] => none
  | _ =>
      cs.foldl (fun acc c =>
        match acc, digitVal c with
        | some n, some d => some (10 * n + d)
        | _, _ => none) (some 0)

/-- Python `int(s)` on a stripped string (optional sign, then digits). -/
def pyParseInt (s : String) : Option ℤ :=
  match s.data with
  | [] => none
  | c :: rest =>
      if c = ('-') then (parseDigits rest).map (fun n => -(n : ℤ))
      else if c = ('+') then (parseDigits rest).map (fun n => (n : ℤ))
      else (parseDigits (c :: rest)).map (fun n => (n : ℤ))

/-- Split a character list at the first dot (identity split when there
is no dot). -/
def splitAtDot (cs : List Char) : List Char × List Char :=
  match cs with
  | [] => ([], [])
  | c :: rest =>
      if c = ('.') then ([], rest)
      else
        let r := splitAtDot rest
        (c :: r.1, r.2)

/-- Unsigned decimal value with an optional fractional part. -/
def pyParseFloatCore (cs : List Char) : Option ℚ :=
  let p := splitAtDot cs
  if p.1 = [] ∧ p.2 = [] then none
  else
    let ip : Option ℕ := if p.1 = [] then some 0 else parseDigits p.1
    let fp : Option ℕ := if p.2 = [] then some 0 else parseDigits p.2
    match ip, fp with
    | some a, some b => some ((a : ℚ) + (b : ℚ) / ((10 : ℚ) ^ p.2.length))
    | _, _ => none

/-- Python `float(s)` on a stripped decimal string. -/
def pyParseFloat (s : String) : Option ℚ :=
  match s.data with
  | [] => none
  | c :: rest =>
      if c = ('-') then (pyParseFloatCore rest).map (fun q => -q)
      else if c = ('+') then pyParseFloatCore rest
      else pyParseFloatCore (c :: rest)

/-- The dot test `"." in val` of `on_start`, as a test on the
character list. -/
def containsDot (s : String) : Bool := s.data.contains ('.')

/-- Per-parameter behaviour of `on_start`: float parse when the text
contains a dot, int parse otherwise, the parameter's default only on a
parse failure. -/
def parseParam (dflt : ℚ) (s : String) : ℚ :=
  if containsDot s then
    match pyParseFloat s with
    | some q => q
    | none => dflt
  else
    match pyParseInt s with
    | some n => (n : ℚ)
    | none => dflt

/-- C9 fails on the code: the out-of-range value `-5` supplied for the
grid-width parameter (default 120, a dimension that must be positive)
parses as an int and is used as-is instead of being replaced by the
documented default. -/
theorem c9_out_of_range_kept :
    parseParam 120 ("-5") = -5 ∧
    ((-5 : ℚ) < 0) ∧
    parseParam 120 ("-5") ≠ 120 := by
  refine ⟨by decide, by norm_num, by decide⟩

/-- C9 amended: a non-numeric value falls back to that parameter's
documented default individually, but a value that parses (int without a
dot, float with one) is used exactly as supplied — no range validation
happens, so out-of-range values such as a negative grid dimension are
accepted. -/
theorem c9_parse_or_default (dflt : ℚ) (s : String) :
    (containsDot s = false → ∀ n : ℤ, pyParseInt s = some n →
      parseParam dflt s = (n : ℚ)) ∧
    (containsDot s = false → pyParseInt s = none → parseParam dflt s = dflt) ∧
    (containsDot s = true → ∀ q : ℚ, pyParseFloat s = some q →
      parseParam dflt s = q) ∧
    (containsDot s = true → pyParseFloat s = none → parseParam dflt s = dflt) := by
  refine ⟨?_, ?_, ?_, ?_⟩
  · intro hdot n hint
    simp [parseParam, hdot, hint]
  · intro hdot hint
    simp [parseParam, hdot, hint]
  · intro hdot q hq
    simp [parseParam, hdot, hq]
  · intro hdot hq
    simp [parseParam, hdot, hq]

theorem c9_parse_or_default_witness :
    parseParam 120 ("-5") = ((-5 : ℤ) : ℚ) ∧
    parseParam 120 ("abc") = 120 ∧
    parseParam 1 ("0..5") = 1 :=
  ⟨(c9_parse_or_default 120 ("-5")).1 (by decide) (-5) (by decide),
    (c9_parse_or_default 120 ("abc")).2.1 (by decide) (by decide),
    (c9_parse_or_default 1 ("0..5")).2.2.2 (by decide) (by decide)⟩

/-! ## Concrete scenarios

`cfg3` is the documented default configuration on a 3 × 3 toroidal grid
(`GRID_W = GRID_H = 3`, all energetics at their `PARAMS` defaults) and
`oczero` the all-zero oracle bundle.  Each scenario below spells out its
initial population; every starting state is one the world initialiser
can produce (distinct agents on distinct non-rock cells, initial energy
`H_INIT`, arbitrary facings, an arbitrary food pattern on non-rock
cells, zero initial predators when `NUM_PRED = 0`). -/

def cfg3 : Cfg :=
  { GRID_W := 3, GRID_H := 3, FOOD_REGROW := 30,
    H_INIT := 10, H_MOVE_COST := 1, H_BASAL_COST := 0, H_FOOD_GAIN := 3,
    H_FOOD_WAIT := 1, H_REPRO_COST := 5, H_REPRO_TH := 25,
    P_INIT := 30, P_MOVE_COST := 1, P_BASAL_COST := 0, P_FOOD_GAIN := 10,
    P_FOOD_WAIT := 2, P_REPRO_COST := 10, P_REPRO_TH := 70 }

def oczero : Oracles :=
  { pdec := fun _ => 0, pwin := fun _ => 0, hdec := fun _ => 0,
    hwin := fun _ => 0, hbaby := fun _ => 0 }

/-- Rock-free 3 × 3 grid with food exactly at (1, 1). -/
def gridC3 : FoodGrid :=
  { w := 3, h := 3, rocks := []
    food := fun q => Decidable.decide (q = (1, 1))
    timer := fun _ => some 0 }

/-- C3 start: one herbivore at (0, 1) facing east with energy 10, no
predators. -/
def stC3 : SimState :=
  { herbs := [{ x := 0, y := 1, facing := 1, energy := 10,
                intended := (0, 1), wait := 0 }]
    preds := []
    grass := gridC3 }

/-- C3 fails on the code: after one tick of the literal scenario the
herbivore sits on (1, 1) with digest wait 1 and the food is gone, but
its energy is 13, not the claimed 12 — `forage` runs before `hunger`,
so the herbivore is digesting at metabolism time and pays the basal
cost 0, not the move cost 1. -/
theorem c3_energy_is_not_twelve :
    ((tick cfg3 oczero [] stC3).herbs.map
        (fun a => (a.pos, a.energy, a.wait))) = [((1, 1), 13, 1)] ∧
    ((13 : ℤ) ≠ 12) := by
  constructor
  · decide
  · decide

/-- C3 amended: in the literal scenario the herbivore ends the tick at
(1, 1) with energy 13 (10 + 3 food gain − 0 basal cost, being mid-digest
at metabolism time), digest wait 1, and `has(1,1)` is false. -/
theorem c3_one_tick_scenario :
    ((tick cfg3 oczero [] stC3).herbs.map
        (fun a => (a.pos, a.energy, a.wait))) = [((1, 1), 13, 1)] ∧
    (tick cfg3 oczero [] stC3).grass.has (1, 1) = false := by
  constructor
  · decide
  · decide

/-- Rock-free 3 × 3 grid with food exactly at (1, 1) and (2, 1). -/
def gridC1 : FoodGrid :=
  { w := 3, h := 3, rocks := []
    food := fun q => Decidable.decide (q = (1, 1) ∨ q = (2, 1))
    timer := fun _ => some 0 }

/-- C1 start: herbivores at (0, 1) facing east (food ahead at (1, 1)),
at (1, 1) facing north, and at (2, 0) facing south (food ahead at
(2, 1)); no predators. -/
def stC1 : SimState :=
  { herbs :=
      [ { x := 0, y := 1, facing := 1, energy := 10, intended := (0, 1), wait := 0 },
        { x := 1, y := 1, facing := 0, energy := 10, intended := (1, 1), wait := 0 },
        { x := 2, y := 0, facing := 2, energy := 10, intended := (2, 0), wait := 0 } ]
    preds := []
    grass := gridC1 }

/-- Oracles for the C1 run: the middle herbivore picks its second open
neighbour (2, 1) and then loses the arbitration for (2, 1) to the third
herbivore. -/
def ocC1 : Oracles :=
  { pdec := fun _ => 0, pwin := fun _ => 0, hdec := fun n => n,
    hwin := fun n => n, hbaby := fun _ => 0 }

/-- C1 fails on the code: the first herbivore's food-ahead intent
targets (1, 1), which is never filtered against occupancy; the (1, 1)
herbivore loses the arbitration for its own intent (2, 1) and stays
put, so the phase ends with two herbivores on (1, 1). -/
theorem c1_two_herbivores_share_a_cell :
    ((tick cfg3 ocC1 [] stC1).herbs.map Herbivore.pos) =
      [(1, 1), (1, 1), (2, 1)] ∧
    ¬ ((tick cfg3 ocC1 [] stC1).herbs.map Herbivore.pos).Nodup := by
  constructor
  · decide
  · decide

/-- C2 start: a herbivore at (1, 1) (standing on food) with energy 30,
and one at (0, 1) facing east toward that food; no predators. -/
def stC2 : SimState :=
  { herbs :=
      [ { x := 1, y := 1, facing := 0, energy := 30, intended := (1, 1), wait := 0 },
        { x := 0, y := 1, facing := 1, energy := 10, intended := (0, 1), wait := 0 } ]
    preds := []
    grass := gridC3 }

/-- C2 fails on the code: the rich herbivore vacates (1, 1) (moving to
(1, 0)) and its reproduction test consults only the moves already
processed, so it spawns a newborn at (1, 1) even though the second
herbivore's food-ahead move — resolved in a later destination group —
also ends on (1, 1): with all moves known the vacated cell is occupied,
so the claim says no newborn, and processing the (1, 1) group first
would indeed have suppressed it. -/
theorem c2_reproduction_sees_partial_moves :
    ((tick cfg3 oczero [] stC2).herbs.map
        (fun a => (a.pos, a.energy))) =
      [((1, 0), 14), ((1, 1), 13), ((1, 1), 10)] ∧
    ((tick cfg3 oczero [] stC2).herbs.map Herbivore.pos).count (1, 1) = 2 := by
  constructor
  · decide
  · decide

/-- Rock-free, food-free 3 × 3 grid. -/
def gridC4 : FoodGrid :=
  { w := 3, h := 3, rocks := [], food := fun _ => false, timer := fun _ => some 0 }

/-- C4 counterexample start: a single herbivore at (0, 0) with energy 30
(above the reproduction threshold), no predators, no food. -/
def stC4 : SimState :=
  { herbs := [{ x := 0, y := 0, facing := 0, energy := 30,
                intended := (0, 0), wait := 0 }]
    preds := []
    grass := gridC4 }

/-- C4 fails on the code: after one tick the newborn herbivore at
(0, 0) still has exactly `H_INIT = 10` energy — `run_game` appends
`new_herb` after the hunger pass, so the newborn paid no metabolic
charge at all, although the claim requires every agent alive at the end
of the tick (newborns included, with zero digest wait) to have paid the
move cost. -/
theorem c4_newborn_herbivore_pays_nothing :
    ((tick cfg3 oczero [] stC4).herbs.map
        (fun a => (a.pos, a.energy, a.wait))) =
      [((0, 2), 14, 0), ((0, 0), 10, 0)] ∧
    ((10 : ℤ) ≠ 10 - cfg3.H_MOVE_COST) := by
  constructor
  · decide
  · decide

/-! ## Metabolism accounting (C4) -/

lemma hResolveStep_babies (cfg : Cfg) (ow ob : ℕ → ℕ) (acc : HResolveAcc)
    (kg : ℕ × Pos × List ℕ) (b : Herbivore)
    (hb : b ∈ (hResolveStep cfg ow ob acc kg).babies) :
    b ∈ acc.babies ∨ b.energy = cfg.H_INIT := by
  unfold hResolveStep at hb
  dsimp only at hb
  split at hb
  · simp only [List.mem_append, List.mem_singleton] at hb
    rcases hb with hb | hb
    · exact Or.inl hb
    · right
      rw [hb]
      rfl
  · exact Or.inl hb

lemma pResolveStep_babies (cfg : Cfg) (ow : ℕ → ℕ) (acc : PResolveAcc)
    (kg : ℕ × Pos × List ℕ) (b : Predator)
    (hb : b ∈ (pResolveStep cfg ow acc kg).babies) :
    b ∈ acc.babies ∨ b.energy = cfg.P_INIT := by
  unfold pResolveStep at hb
  dsimp only at hb
  split at hb
  · simp only [List.mem_append, List.mem_singleton] at hb
    rcases hb with hb | hb
    · exact Or.inl hb
    · right
      rw [hb]
      rfl
  · exact Or.inl hb

lemma hResolve_fold_babies (cfg : Cfg) (ow ob : ℕ → ℕ)
    (l : List (ℕ × (Pos × List ℕ))) (acc : HResolveAcc)
    (hacc : ∀ b ∈ acc.babies, b.energy = cfg.H_INIT) :
    ∀ b ∈ (l.foldl (fun acc p => hResolveStep cfg ow ob acc (p.1, p.2)) acc).babies,
      b.energy = cfg.H_INIT := by
  induction l generalizing acc with
  | nil => simpa using hacc
  | cons x xs ih =>
      simp only [List.foldl_cons]
      apply ih
      intro b hb
      rcases hResolveStep_babies cfg ow ob acc (x.1, x.2) b hb with h | h
      · exact hacc b h
      · exact h

lemma pResolve_fold_babies (cfg : Cfg) (ow : ℕ → ℕ)
    (l : List (ℕ × (Pos × List ℕ))) (acc : PResolveAcc)
    (hacc : ∀ b ∈ acc.babies, b.energy = cfg.P_INIT) :
    ∀ b ∈ (l.foldl (fun acc p => pResolveStep cfg ow acc (p.1, p.2)) acc).babies,
      b.energy = cfg.P_INIT := by
  induction l generalizing acc with
  | nil => simpa using hacc
  | cons x xs ih =>
      simp only [List.foldl_cons]
      apply ih
      intro b hb
      rcases pResolveStep_babies cfg ow acc (x.1, x.2) b hb with h | h
      · exact hacc b h
      · exact h

/-- Every offspring produced by the herbivore resolution loop carries
exactly `H_INIT` energy. -/
lemma hResolve_babies_energy (cfg : Cfg) (ow ob : ℕ → ℕ)
    (agents : List Herbivore) (groups : List (Pos × List ℕ)) :
    ∀ b ∈ (hResolve cfg ow ob agents groups).babies, b.energy = cfg.H_INIT := by
  unfold hResolve
  exact hResolve_fold_babies cfg ow ob _ _ (by simp)

/-- Every offspring produced by the predator resolution loop carries
exactly `P_INIT` energy. -/
lemma pResolve_babies_energy (cfg : Cfg) (ow : ℕ → ℕ)
    (agents : List Predator) (groups : List (Pos × List ℕ)) :
    ∀ b ∈ (pResolve cfg ow agents groups).babies, b.energy = cfg.P_INIT := by
  unfold pResolve
  exact pResolve_fold_babies cfg ow _ _ (by simp)

lemma herbPhaseFull_out_eq (cfg : Cfg) (od ow ob : ℕ → ℕ)
    (hs : List Herbivore) (grass : FoodGrid) (rocks : List Pos) :
    (herbPhaseFull cfg od ow ob hs grass rocks).out =
      (((herbPhaseFull cfg od ow ob hs grass rocks).preCharge.map
          (Herbivore.hunger cfg)).filter
        (fun a => Decidable.decide (¬ a.energy ≤ 0))) ++
      (herbPhaseFull cfg od ow ob hs grass rocks).res.babies := rfl

lemma predPhaseFull_out_eq (cfg : Cfg) (od ow : ℕ → ℕ) (ps : List Predator)
    (hs : List Herbivore) (rocks : List Pos) :
    (predPhaseFull cfg od ow ps hs rocks).out =
      ((predPhaseFull cfg od ow ps hs rocks).preCharge.map
          (Predator.hunger cfg)).filter
        (fun a => Decidable.decide (¬ a.energy ≤ 0)) := rfl

lemma predPhaseFull_preCharge_eq (cfg : Cfg) (od ow : ℕ → ℕ)
    (ps : List Predator) (hs : List Herbivore) (rocks : List Pos) :
    (predPhaseFull cfg od ow ps hs rocks).preCharge =
      (pEatAll cfg (predPhaseFull cfg od ow ps hs rocks).res.agents
        (predPhaseFull cfg od ow ps hs rocks).dict0).1 ++
      (predPhaseFull cfg od ow ps hs rocks).res.babies := rfl

lemma herb_hunger_energy (cfg : Cfg) (b : Herbivore) :
    (b.hunger cfg).energy =
      b.energy - (if b.wait ≠ 0 then cfg.H_BASAL_COST else cfg.H_MOVE_COST) := by
  unfold Herbivore.hunger
  split <;> simp

lemma pred_hunger_energy (cfg : Cfg) (b : Predator) :
    (b.hunger cfg).energy =
      b.energy - (if b.wait ≠ 0 then cfg.P_BASAL_COST else cfg.P_MOVE_COST) := by
  unfold Predator.hunger
  split <;> simp

/-- C4 amended: at the end of either species phase, every survivor
drawn from the pre-metabolism population has paid exactly one metabolic
charge — the basal cost if its digest wait was nonzero at metabolism
time, the move cost otherwise — and survived it with positive energy;
predator newborns are part of the charged population, while herbivore
newborns are appended after the hunger pass with their initial energy
`H_INIT` untouched, hence pay no charge in their birth tick. -/
theorem c4_one_charge_except_herb_newborns (cfg : Cfg) (od ow ob : ℕ → ℕ)
    (hs : List Herbivore) (grass : FoodGrid) (rocks : List Pos)
    (od2 ow2 : ℕ → ℕ) (ps : List Predator) (hs2 : List Herbivore) :
    (∀ a ∈ (herbPhaseFull cfg od ow ob hs grass rocks).out,
      (∃ b ∈ (herbPhaseFull cfg od ow ob hs grass rocks).preCharge,
        a = b.hunger cfg ∧
        a.energy = b.energy -
          (if b.wait ≠ 0 then cfg.H_BASAL_COST else cfg.H_MOVE_COST) ∧
        ¬ a.energy ≤ 0) ∨
      (a ∈ (herbPhaseFull cfg od ow ob hs grass rocks).res.babies ∧
        a.energy = cfg.H_INIT)) ∧
    (∀ b ∈ (herbPhaseFull cfg od ow ob hs grass rocks).res.babies,
      b.energy = cfg.H_INIT) ∧
    (∀ a ∈ (predPhaseFull cfg od2 ow2 ps hs2 rocks).out,
      ∃ b ∈ (predPhaseFull cfg od2 ow2 ps hs2 rocks).preCharge,
        a = b.hunger cfg ∧
        a.energy = b.energy -
          (if b.wait ≠ 0 then cfg.P_BASAL_COST else cfg.P_MOVE_COST) ∧
        ¬ a.energy ≤ 0) ∧
    (∀ b ∈ (predPhaseFull cfg od2 ow2 ps hs2 rocks).res.babies,
      b.energy = cfg.P_INIT ∧
      b ∈ (predPhaseFull cfg od2 ow2 ps hs2 rocks).preCharge) := by
  have hbabies : ∀ b ∈ (herbPhaseFull cfg od ow ob hs grass rocks).res.babies,
      b.energy = cfg.H_INIT := by
    intro b hb
    exact hResolve_babies_energy cfg ow ob _ _ b hb
  refine ⟨?_, hbabies, ?_, ?_⟩
  · intro a ha
    rw [herbPhaseFull_out_eq] at ha
    rcases List.mem_append.mp ha with ha | ha
    · left
      rcases List.mem_filter.mp ha with ⟨hm, hp⟩
      rcases List.mem_map.mp hm with ⟨b, hbm, rfl⟩
      exact ⟨b, hbm, rfl, herb_hunger_energy cfg b, by simpa using hp⟩
    · exact Or.inr ⟨ha, hbabies a ha⟩
  · intro a ha
    rw [predPhaseFull_out_eq] at ha
    rcases List.mem_filter.mp ha with ⟨hm, hp⟩
    rcases List.mem_map.mp hm with ⟨b, hbm, rfl⟩
    exact ⟨b, hbm, rfl, pred_hunger_energy cfg b, by simpa using hp⟩
  · intro b hb
    refine ⟨pResolve_babies_energy cfg ow2 _ _ b hb, ?_⟩
    rw [predPhaseFull_preCharge_eq]
    exact List.mem_append_right _ hb

theorem c4_one_charge_except_herb_newborns_witness :
    ((∃ b ∈ (herbPhaseFull cfg3 (fun _ => 0) (fun _ => 0) (fun _ => 0)
          stC4.herbs gridC4 []).preCharge,
        ({ x := 0, y := 2, facing := 0, energy := 14, intended := (0, 2),
           wait := 0 } : Herbivore) = b.hunger cfg3 ∧
        (14 : ℤ) = b.energy -
          (if b.wait ≠ 0 then cfg3.H_BASAL_COST else cfg3.H_MOVE_COST) ∧
        ¬ (14 : ℤ) ≤ 0) ∨
      (({ x := 0, y := 2, facing := 0, energy := 14, intended := (0, 2),
          wait := 0 } : Herbivore) ∈
          (herbPhaseFull cfg3 (fun _ => 0) (fun _ => 0) (fun _ => 0)
            stC4.herbs gridC4 []).res.babies ∧
        (14 : ℤ) = cfg3.H_INIT)) ∧
    (∃ b ∈ (predPhaseFull cfg3 (fun _ => 0) (fun _ => 0)
          [{ x := 0, y := 0, energy := 30, intended := (0, 0), wait := 0 }]
          [] []).preCharge,
        ({ x := 0, y := 2, energy := 29, intended := (0, 2),
           wait := 0 } : Predator) = b.hunger cfg3 ∧
        (29 : ℤ) = b.energy -
          (if b.wait ≠ 0 then cfg3.P_BASAL_COST else cfg3.P_MOVE_COST) ∧
        ¬ (29 : ℤ) ≤ 0) := by
  have h := c4_one_charge_except_herb_newborns cfg3 (fun _ => 0) (fun _ => 0)
    (fun _ => 0) stC4.herbs gridC4 [] (fun _ => 0) (fun _ => 0)
    [{ x := 0, y := 0, energy := 30, intended := (0, 0), wait := 0 }] []
  exact ⟨h.1 _ (by decide), h.2.2.1 _ (by decide)⟩

/-! ## Herbivore candidate set (C5) -/

/-- Modelled from the claim's words, for comparison with the source's
`Herbivore.opts`: the orthogonal neighbours that are neither blocked
terrain nor already intended-occupied by another herbivore evaluated
earlier in the same phase (`earlierIntents`). -/
def hOptsClaim (cfg : Cfg) (a : Herbivore) (earlierIntents rocks : List Pos) :
    List (Pos × Fin 4) :=
  (List.finRange 4).filterMap (fun i =>
    let n := stepPos cfg a.pos (DIRS i)
    if n ∉ rocks ∧ n ∉ earlierIntents then some (n, i) else none)

/-- The two-herbivore population of the C5 scenario, on the food-free
grid `gridC4`: one at (0, 0) facing north, one at (2, 0) facing north. -/
def herbsC5 : List Herbivore :=
  [ { x := 0, y := 0, facing := 0, energy := 10, intended := (0, 0), wait := 0 },
    { x := 2, y := 0, facing := 0, energy := 10, intended := (2, 0), wait := 0 } ]

/-- Oracle draws of the C5 run: the first herbivore picks its second
open neighbour (1, 0), the second its third, which is (1, 0) as well. -/
def odC5 : ℕ → ℕ := fun n => if n = 0 then 1 else 2

/-- C5 fails on the code: both herbivores of the phase end up intending
(1, 0), although the claim's candidate set for the second one would
exclude (1, 0) (the first, evaluated earlier, already intends it) while
holding (0, 0) (a currently occupied cell whose occupant intends to
leave); the source filters by the phase-start occupancy snapshot
instead, so its candidate list keeps (1, 0) and drops (0, 0), and the
two candidate sets differ at this input. -/
theorem c5_candidate_set_ignores_intents :
    ((hDecideAll cfg3 odC5 herbsC5 gridC4 (herbsC5.map Herbivore.pos) []).map
        Herbivore.intended) = [(1, 0), (1, 0)] ∧
    gridC4.has (stepPos cfg3 ((2 : ℕ), (0 : ℕ)) (DIRS 0)) = false ∧
    Herbivore.opts cfg3
        { x := 2, y := 0, facing := 0, energy := 10, intended := (2, 0), wait := 0 }
        (herbsC5.map Herbivore.pos) [] ≠
      hOptsClaim cfg3
        { x := 2, y := 0, facing := 0, energy := 10, intended := (2, 0), wait := 0 }
        [(1, 0)] [] ∧
    ((((1 : ℕ), (0 : ℕ)), (3 : Fin 4)) ∈ Herbivore.opts cfg3
        { x := 2, y := 0, facing := 0, energy := 10, intended := (2, 0), wait := 0 }
        (herbsC5.map Herbivore.pos) []) ∧
    (∀ d : Fin 4, (((1 : ℕ), (0 : ℕ)), d) ∉ hOptsClaim cfg3
        { x := 2, y := 0, facing := 0, energy := 10, intended := (2, 0), wait := 0 }
        [(1, 0)] []) := by
  refine ⟨by decide, by decide, by decide, by decide, by decide⟩

/-- C5 amended: when the facing-ahead cell lacks food, the candidate
set is exactly the orthogonal neighbours that are neither blocked
terrain nor occupied by a herbivore position of the phase-start snapshot
(`occupied`); if it is nonempty the oracle draw selects one of its
members as both the new intent and the new facing, otherwise the
herbivore intends its current cell. -/
theorem c5_decide_characterisation (cfg : Cfg) (a : Herbivore)
    (grass : FoodGrid) (occupied rocks : List Pos) (k : ℕ)
    (hno : grass.has (stepPos cfg a.pos (DIRS a.facing)) = false) :
    (∀ p : Pos, ∀ d : Fin 4,
      ((p, d) ∈ a.opts cfg occupied rocks ↔
        (p = stepPos cfg a.pos (DIRS d) ∧ p ∉ occupied ∧ p ∉ rocks))) ∧
    (a.opts cfg occupied rocks = [] →
      a.decide cfg grass occupied rocks k = { a with intended := a.pos }) ∧
    (∀ c : Pos × Fin 4, a.opts cfg occupied rocks ≠ [] →
      c = (a.opts cfg occupied rocks).getD
            (k % (a.opts cfg occupied rocks).length) (a.pos, a.facing) →
      a.decide cfg grass occupied rocks k =
        { a with intended := c.1, facing := c.2 } ∧
      c ∈ a.opts cfg occupied rocks) := by
  refine ⟨?_, ?_, ?_⟩
  · intro p d
    unfold Herbivore.opts
    rw [List.mem_filterMap]
    constructor
    · rintro ⟨i, -, hf⟩
      dsimp only at hf
      split at hf
      · rename_i hcond
        rcases Prod.mk.injEq .. ▸ Option.some.injEq .. ▸ hf with ⟨h1, h2⟩
        subst h2
        exact ⟨h1.symm, (h1 ▸ hcond : _)⟩
      · exact absurd hf (by simp)
    · rintro ⟨hp, hocc, hrk⟩
      refine ⟨d, List.mem_finRange d, ?_⟩
      dsimp only
      rw [if_pos ⟨hp ▸ hocc, hp ▸ hrk⟩, hp]
  · intro hempty
    unfold Herbivore.decide
    simp [hno, hempty]
  · intro c hne hc
    have hlen : 0 < (a.opts cfg occupied rocks).length :=
      List.length_pos.mpr hne
    have hlt : k % (a.opts cfg occupied rocks).length <
        (a.opts cfg occupied rocks).length := Nat.mod_lt _ hlen
    constructor
    · unfold Herbivore.decide
      have hie : (a.opts cfg occupied rocks).isEmpty = false := by
        simpa [List.isEmpty_iff] using hne
      simp only [hno, Bool.false_eq_true, if_false, hie, hc]
    · rw [hc, List.getD_eq_getElem?_getD, List.getElem?_eq_getElem hlt]
      exact List.getElem_mem ..

theorem c5_decide_characterisation_witness :
    Herbivore.decide cfg3
        { x := 2, y := 0, facing := 0, energy := 10, intended := (2, 0), wait := 0 }
        gridC4 (herbsC5.map Herbivore.pos) [] 2 =
      { x := 2, y := 0, facing := 3, energy := 10, intended := (1, 0), wait := 0 } ∧
    ((((1 : ℕ), (0 : ℕ)), (3 : Fin 4)) ∈ Herbivore.opts cfg3
        { x := 2, y := 0, facing := 0, energy := 10, intended := (2, 0), wait := 0 }
        (herbsC5.map Herbivore.pos) []) := by
  have h := (c5_decide_characterisation cfg3
    { x := 2, y := 0, facing := 0, energy := 10, intended := (2, 0), wait := 0 }
    gridC4 (herbsC5.map Herbivore.pos) [] 2 (by decide)).2.2
    (((1 : ℕ), (0 : ℕ)), (3 : Fin 4)) (by decide) (by decide)
  exact ⟨h.1, h.2⟩

end Ecosim
